import Mathlib

/-!
Shallow embedding of the OBD backend core (src/main.py): the telemetry
simulator (_simulate_value, generate_live_data), the diagnostics sampler
(obd_diagnostics) and the keyword-rule classifier (tech_assistant_answer).
Randomness is made explicit: each random.* draw of the Python code becomes
an argument of the embedded function.
-/

namespace OBD

/-- One character of Python str.lower, modelled on the ASCII and Latin-1
uppercase ranges: A-Z (65-90) and À-Þ (192-222 except ×, 215) map 32 code
points up; every other character is unchanged.  This covers every character
the classifier compares. -/
def pyLowerChar (c : Char) : Char :=
  let n := c.toNat
  if (65 ≤ n ∧ n ≤ 90) ∨ (192 ≤ n ∧ n ≤ 222 ∧ n ≠ 215) then Char.ofNat (n + 32) else c

/-- Python str.lower, character by character (q.lower() in the source). -/
def pyLower (s : String) : String :=
  String.mk (s.data.map pyLowerChar)

/-- needle is a leading piece of hay (helper for substring containment). -/
def isPrefixList : List Char → List Char → Bool
  | [], _ => true
  | _ :: _, [] => false
  | a :: as, b :: bs => a == b && isPrefixList as bs

/-- Python substring containment, needle in hay (the in operator on str). -/
def containsSub (needle : List Char) : List Char → Bool
  | [] => isPrefixList needle []
  | b :: bs => isPrefixList needle (b :: bs) || containsSub needle bs

/-- DTC_LIBRARY of src/main.py, in its declaration order (Python dicts keep
insertion order, and the classifier iterates over it in that order). -/
def DTC_LIBRARY : List (String × String) :=
  [ ("P0300", "Allumage raté aléatoire/multiple. Vérifier bougies, bobines, faisceau."),
    ("P0171", "Mélange pauvre (banc 1). Chercher prise d\x27air, débitmètre, pression carburant."),
    ("P0420", "Efficacité catalyseur faible. Contrôler fuites échappement, sonde amont/aval, catalyseur."),
    ("P0113", "Capteur température d\x27air d\x27admission (IAT) – signal élevé."),
    ("P0128", "Thermostat probablement ouvert. Température moteur trop basse.") ]

/-- ChatResponse model of src/main.py: answer plus optional tips
(tips = none is the Python default None). -/
structure ChatResponse where
  answer : String
  tips : Option (List String)
deriving DecidableEq

/-- The generic tip appended for any decoded DTC. -/
def dtcTip : String :=
  "Vérifier le faisceau, les connecteurs et effacer le code après réparation."

/-- Fixed answer of the obd/elm327 rule (Python adjacent string literals
concatenated). -/
def obdAnswer : String :=
  "Les adaptateurs ELM327 existent en Bluetooth, Wi‑Fi et USB. Pour un diagnostic fiable, utilisez un PID standard (RPM, vitesse, température) et lisez les DTC P0xxx. Je peux simuler des données et expliquer les résultats."

def obdTips : List String :=
  [ "Toujours moteur chaud pour des valeurs stables",
    "Vérifier les tensions batterie (>12.4V à l\x27arrêt, >13.8V en charge)" ]

def idleAnswer : String :=
  "Au ralenti, un RPM autour de 700–900 est normal. Les sondes lambda oscillent ~0.1–0.9V en boucle fermée. Si instable: rechercher prises d\x27air, débitmètre encrassé, allumage."

def idleTips : List String :=
  [ "Contrôle fumigène pour prises d\x27air", "Nettoyage papillon et apprentissage ralenti" ]

def idleKeywords : List String :=
  ["rpm", "ralenti", "boucle", "sonde lambda", "lambda", "o2"]

def ecuAnswer : String :=
  "Le calculateur (ECU) gère injection/avance via capteurs. Une reprogrammation doit rester dans les tolérances mécaniques et légales. Pour un diagnostic, lire trims carburant (LTFT/STFT) et pression rail."

def ecuTips : List String :=
  [ "Toujours sauvegarder la carto d\x27origine", "Surveiller EGT et AFR après modifs" ]

def ecuKeywords : List String :=
  ["ecu", "calculateur", "reprogram", "reprog", "carto", "map"]

def batAnswer : String :=
  "Pour un défaut de démarrage: tester batterie (chute de tension <9.6V sous charge), alternateur (13.8–14.5V), masse châssis et excitation."

def batTips : List String :=
  [ "Mesure avec multimètre en charge", "Nettoyer cosses et points de masse" ]

def batKeywords : List String :=
  ["batterie", "alternateur", "démarrage", "démarreur", "12v"]

def defaultAnswer : String :=
  "Je peux expliquer pannes mécaniques/électriques, décoder DTC, et interpréter tes valeurs OBD. Pose ta question (ex: \x27Que signifie P0420 ?\x27 ou \x27Ralenti instable essence\x27)."

/-- any(k in text for k in ks): some keyword of ks is a substring of text. -/
def kwAny (ks : List String) (text : List Char) : Bool :=
  ks.any (fun k => containsSub k.data text)

/-- The first loop of tech_assistant_answer: walk the catalog in declaration
order; on the first code whose lower-cased text is a substring of the
lower-cased question, return the decoded answer with the single generic tip
(the Python loop appends the tip to the empty tips list and returns). -/
def decodeDtc (text : List Char) : List (String × String) → Option ChatResponse
  | [] => none
  | (code, desc) :: rest =>
    if containsSub (pyLower code).data text then
      some ⟨"Le code " ++ code ++ " signifie: " ++ desc, some [dtcTip]⟩
    else
      decodeDtc text rest

/-- tech_assistant_answer of src/main.py: lower-case the question, then run
the first-match-wins cascade (DTC codes, obd/elm327, idle/lambda keywords,
ECU keywords, battery keywords, default). -/
def tech_assistant_answer (q : String) : ChatResponse :=
  let text := (pyLower q).data
  match decodeDtc text DTC_LIBRARY with
  | some r => r
  | none =>
    if containsSub "obd".data text || containsSub "elm327".data text then
      ⟨obdAnswer, some obdTips⟩
    else if kwAny idleKeywords text then
      ⟨idleAnswer, some idleTips⟩
    else if kwAny ecuKeywords text then
      ⟨ecuAnswer, some ecuTips⟩
    else if kwAny batKeywords text then
      ⟨batAnswer, some batTips⟩
    else
      ⟨defaultAnswer, none⟩

/-- Python int() applied to a real number: truncation toward zero.  The
gauss sample is modelled as a rational argument; T-division of the
numerator by the denominator truncates toward zero (⌊q⌋ for q ≥ 0 and
⌈q⌉ for q < 0). -/
def pyInt (q : ℚ) : ℤ :=
  q.num.tdiv (q.den : ℤ)

/-- Embedding of _simulate_value of src/main.py.  The call random.gauss(baseline, variance)
is made explicit: g is the value the normal sampler returned; the function
truncates it with int() and clamps with max(min_v, min(max_v, value)). -/
def simulate_value (baseline variance : ℤ) (g : ℚ) (min_v max_v : ℤ) : ℤ :=
  let value := pyInt g
  max min_v (min max_v value)

/-- LiveData model of src/main.py (the SensorSnapshot of the spec). -/
structure LiveData where
  timestamp : String
  rpm : ℤ
  speed : ℤ
  coolant_temp : ℤ
  throttle : ℤ
  load : ℤ
  intake_temp : ℤ
deriving DecidableEq

/-- generate_live_data of src/main.py.  ts stands for the timestamp string
and g1..g6 for the six gauss draws, in the order the source makes them. -/
def generate_live_data (ts : String) (g1 g2 g3 g4 g5 g6 : ℚ) : LiveData :=
  ⟨ ts,
    simulate_value 850 80 g1 650 1200,
    simulate_value 0 1 g2 0 5,
    simulate_value 88 3 g3 70 100,
    simulate_value 4 2 g4 0 15,
    simulate_value 18 5 g5 5 35,
    simulate_value 32 3 g6 5 60 ⟩

/-- random.choice(seq) modelled with an explicit random draw r: the element
at a uniformly chosen index of the sequence. -/
def pyChoice (seq : List Nat) (r : Nat) : Nat :=
  seq.getD (r % seq.length) 0

/-- random.sample(pop, k) modelled with an explicit stream of random draws:
repeat k times; each step picks a uniformly random index into what is left
of the population, takes that element and removes it, so the k results are
distinct members of pop.  An exhausted stream ends the sampling early (the
theorems below do not depend on the stream being long enough). -/
def pySample (rand : List Nat) (pop : List String) : Nat → List String
  | 0 => []
  | k + 1 =>
    match rand with
    | [] => []
    | r :: rs =>
      if pop.length = 0 then []
      else
        pop.getD (r % pop.length) "" :: pySample rs (pop.eraseIdx (r % pop.length)) k

/-- DiagnosticItem model of src/main.py. -/
structure DiagnosticItem where
  code : String
  description : String
  severity : String
deriving DecidableEq

/-- The hardcoded high-severity codes of obd_diagnostics. -/
def highSeverityCodes : List String := ["P0420", "P0300"]

/-- obd_diagnostics of src/main.py: k = random.choice([0, 1, 2]) codes are
sampled without replacement from the catalog keys, and each becomes a
DiagnosticItem with description DTC_LIBRARY.get(c, "Code inconnu") and
severity élevée exactly on the hardcoded high-severity codes.  rc is the
draw behind random.choice and rand the draws behind random.sample. -/
def obd_diagnostics (rc : Nat) (rand : List Nat) : List DiagnosticItem :=
  let codes := pySample rand (DTC_LIBRARY.map Prod.fst) (pyChoice [0, 1, 2] rc)
  codes.map (fun c =>
    ⟨ c,
      ((DTC_LIBRARY.lookup c).getD "Code inconnu"),
      (if c ∈ highSeverityCodes then "élevée" else "moyenne") ⟩)

/-- Modelled from the spec: "round to an integer" / "rounding to the nearest
integer" — Mathlib round, ⌊q + 1/2⌋, used only to compare the reading of the
spec against the int() truncation of the source. -/
def specRound (q : ℚ) : ℤ :=
  round q

/-- Modelled from the spec: "clamp to a fixed [min, max] range", written as
the direct case split rather than the max/min composition of the source. -/
def clamp_spec (lo hi z : ℤ) : ℤ :=
  if z < lo then lo else if hi < z then hi else z

/-- The classifier as the spec states it, for the refinement claim: step 1 is
a first-match search over the catalog in declaration order, steps 2-5 are the
ordered keyword categories with their sets spelled out as the spec lists
them, step 6 the default. -/
def classify_spec (q : String) : ChatResponse :=
  let text := (pyLower q).data
  match DTC_LIBRARY.find? (fun cd => containsSub (pyLower cd.1).data text) with
  | some cd => ⟨"Le code " ++ cd.1 ++ " signifie: " ++ cd.2, some [dtcTip]⟩
  | none =>
    if containsSub "obd".data text || containsSub "elm327".data text then
      ⟨obdAnswer, some obdTips⟩
    else if ["rpm", "ralenti", "boucle", "sonde lambda", "lambda", "o2"].any
        (fun k => containsSub k.data text) then
      ⟨idleAnswer, some idleTips⟩
    else if ["ecu", "calculateur", "reprogram", "reprog", "carto", "map"].any
        (fun k => containsSub k.data text) then
      ⟨ecuAnswer, some ecuTips⟩
    else if ["batterie", "alternateur", "démarrage", "démarreur", "12v"].any
        (fun k => containsSub k.data text) then
      ⟨batAnswer, some batTips⟩
    else
      ⟨defaultAnswer, none⟩

/-- Some catalog code (lower-cased) is a substring of the lower-cased
question, i.e. rule 1 of the cascade fires. -/
def dtcHit (q : String) : Bool :=
  DTC_LIBRARY.any (fun cd => containsSub (pyLower cd.1).data (pyLower q).data)

/-- Some keyword of rules 2-5 is a substring of the lower-cased question. -/
def kwHit (q : String) : Bool :=
  containsSub "obd".data (pyLower q).data ||
  containsSub "elm327".data (pyLower q).data ||
  kwAny idleKeywords (pyLower q).data ||
  kwAny ecuKeywords (pyLower q).data ||
  kwAny batKeywords (pyLower q).data

/-- A sequence of chat calls: the server handles each question in order with
no state carried between them. -/
def runSession (qs : List String) : List ChatResponse :=
  qs.map tech_assistant_answer

example : (tech_assistant_answer "bonjour").tips = none := by decide

example : (tech_assistant_answer "Que signifie P0420 ?").answer =
    "Le code P0420 signifie: Efficacité catalyseur faible. Contrôler fuites échappement, sonde amont/aval, catalyseur." := by
  decide

example : (tech_assistant_answer "p0171 et p0300 ensemble").answer =
    "Le code P0300 signifie: Allumage raté aléatoire/multiple. Vérifier bougies, bobines, faisceau." := by
  decide

example : simulate_value 850 80 (8 / 5 : ℚ) 0 10 = 1 := by
  norm_num [simulate_value, pyInt]
  decide

example : simulate_value 850 80 (2000 : ℚ) 650 1200 = 1200 := by
  norm_num [simulate_value, pyInt]

example : pyInt (-8 / 5 : ℚ) = -1 := by
  norm_num [pyInt]
  decide

example : obd_diagnostics 1 [0] =
    [⟨"P0300", "Allumage raté aléatoire/multiple. Vérifier bougies, bobines, faisceau.", "élevée"⟩] := by
  decide

example : obd_diagnostics 2 [3, 1] =
    [ ⟨"P0113", "Capteur température d\x27air d\x27admission (IAT) – signal élevé.", "moyenne"⟩,
      ⟨"P0171", "Mélange pauvre (banc 1). Chercher prise d\x27air, débitmètre, pression carburant.", "moyenne"⟩ ] := by
  decide

/-! ## Simulator lemmas -/

lemma simulate_value_lower (b v : ℤ) (g : ℚ) (lo hi : ℤ) :
    lo ≤ simulate_value b v g lo hi :=
  le_max_left _ _

lemma simulate_value_upper (b v : ℤ) (g : ℚ) (lo hi : ℤ) (h : lo ≤ hi) :
    simulate_value b v g lo hi ≤ hi :=
  max_le h (min_le_left _ _)

/-- Claim C1: every one of the six integer fields of the snapshot returned by
generate_live_data lies within its declared fixed range — rpm in [650, 1200],
speed in [0, 5], coolant_temp in [70, 100], throttle in [0, 15], load in
[5, 35] and intake_temp in [5, 60] — regardless of the values drawn from the
random source. -/
theorem generate_live_data_fields_in_range (ts : String) (g1 g2 g3 g4 g5 g6 : ℚ) :
    650 ≤ (generate_live_data ts g1 g2 g3 g4 g5 g6).rpm ∧
    (generate_live_data ts g1 g2 g3 g4 g5 g6).rpm ≤ 1200 ∧
    0 ≤ (generate_live_data ts g1 g2 g3 g4 g5 g6).speed ∧
    (generate_live_data ts g1 g2 g3 g4 g5 g6).speed ≤ 5 ∧
    70 ≤ (generate_live_data ts g1 g2 g3 g4 g5 g6).coolant_temp ∧
    (generate_live_data ts g1 g2 g3 g4 g5 g6).coolant_temp ≤ 100 ∧
    0 ≤ (generate_live_data ts g1 g2 g3 g4 g5 g6).throttle ∧
    (generate_live_data ts g1 g2 g3 g4 g5 g6).throttle ≤ 15 ∧
    5 ≤ (generate_live_data ts g1 g2 g3 g4 g5 g6).load ∧
    (generate_live_data ts g1 g2 g3 g4 g5 g6).load ≤ 35 ∧
    5 ≤ (generate_live_data ts g1 g2 g3 g4 g5 g6).intake_temp ∧
    (generate_live_data ts g1 g2 g3 g4 g5 g6).intake_temp ≤ 60 := by
  refine ⟨?_, ?_, ?_, ?_, ?_, ?_, ?_, ?_, ?_, ?_, ?_, ?_⟩ <;>
    simp only [generate_live_data] <;>
    first
      | exact simulate_value_lower _ _ _ _ _
      | exact simulate_value_upper _ _ _ _ _ (by norm_num)

/-- Claim C3, counterexample: at the sample 8/5 = 1.6 with range [0, 10], the
source _simulate_value yields 1 (int() truncates toward zero) while the
clamp(round(x), min, max) of the claim yields 2 — the per-field result is not
round-then-clamp. -/
theorem simulate_value_round_counterexample :
    simulate_value 850 80 (8 / 5 : ℚ) 0 10 ≠ clamp_spec 0 10 (specRound (8 / 5 : ℚ)) := by
  have h1 : simulate_value 850 80 (8 / 5 : ℚ) 0 10 = 1 := by
    norm_num [simulate_value, pyInt]
    decide
  have h2 : specRound (8 / 5 : ℚ) = 2 := by
    norm_num [specRound, round_eq]
  rw [h1, h2]
  decide

/-- Claim C3, amended: for every (baseline, stddev, min, max) tuple with
min ≤ max (all six tuples the snapshot generator uses satisfy this) and every
value x drawn from the normal sampler, the per-field result equals
clamp(trunc(x), min, max), where trunc is Python int(), truncation toward
zero — truncation, not rounding to nearest, happens before clamping. -/
theorem simulate_value_eq_clamp_trunc (b v : ℤ) (g : ℚ) (lo hi : ℤ) (h : lo ≤ hi) :
    simulate_value b v g lo hi = clamp_spec lo hi (pyInt g) := by
  simp only [simulate_value, clamp_spec]
  split_ifs <;> omega

/-- Witness for the amended claim C3 at the tuple (850, 80, 0, 10) and the
sample 8/5. -/
theorem simulate_value_eq_clamp_trunc_witness :
    (0 : ℤ) ≤ 10 ∧
    simulate_value 850 80 (8 / 5 : ℚ) 0 10 = clamp_spec 0 10 (pyInt (8 / 5 : ℚ)) :=
  ⟨by norm_num, simulate_value_eq_clamp_trunc 850 80 (8 / 5 : ℚ) 0 10 (by norm_num)⟩

/-! ## Sampling lemmas -/

lemma pySample_length_le_count :
    ∀ (k : Nat) (rand : List Nat) (pop : List String), (pySample rand pop k).length ≤ k
  | 0, _, _ => by simp [pySample]
  | k + 1, [], pop => by simp [pySample]
  | k + 1, r :: rs, pop => by
    by_cases h : pop.length = 0
    · simp [pySample, h]
    · simpa [pySample, h] using pySample_length_le_count k rs (pop.eraseIdx (r % pop.length))

lemma pySample_length_le_pop :
    ∀ (k : Nat) (rand : List Nat) (pop : List String), (pySample rand pop k).length ≤ pop.length
  | 0, _, _ => by simp [pySample]
  | k + 1, [], pop => by simp [pySample]
  | k + 1, r :: rs, pop => by
    by_cases h : pop.length = 0
    · simp [pySample, h]
    · have hlt : r % pop.length < pop.length := Nat.mod_lt _ (Nat.pos_of_ne_zero h)
      have hrec := pySample_length_le_pop k rs (pop.eraseIdx (r % pop.length))
      have hlen : (pop.eraseIdx (r % pop.length)).length = pop.length - 1 := by
        simp [List.length_eraseIdx, hlt]
      simp only [pySample, if_neg h, List.length_cons]
      omega

lemma pySample_subset :
    ∀ (k : Nat) (rand : List Nat) (pop : List String) (x : String),
      x ∈ pySample rand pop k → x ∈ pop
  | 0, _, _, _, hx => by simp [pySample] at hx
  | k + 1, [], pop, _, hx => by simp [pySample] at hx
  | k + 1, r :: rs, pop, x, hx => by
    by_cases h : pop.length = 0
    · simp [pySample, h] at hx
    · have hlt : r % pop.length < pop.length := Nat.mod_lt _ (Nat.pos_of_ne_zero h)
      simp only [pySample, if_neg h, List.mem_cons] at hx
      rcases hx with hx | hx
      · rw [hx, List.getD_eq_getElem _ _ hlt]
        exact List.getElem_mem hlt
      · exact List.mem_of_mem_eraseIdx
          (pySample_subset k rs (pop.eraseIdx (r % pop.length)) x hx)

lemma pySample_nodup :
    ∀ (k : Nat) (rand : List Nat) (pop : List String),
      pop.Nodup → (pySample rand pop k).Nodup
  | 0, _, _, _ => by simp [pySample]
  | k + 1, [], pop, _ => by simp [pySample]
  | k + 1, r :: rs, pop, hnd => by
    by_cases h : pop.length = 0
    · simp [pySample, h]
    · have hlt : r % pop.length < pop.length := Nat.mod_lt _ (Nat.pos_of_ne_zero h)
      simp only [pySample, if_neg h, List.nodup_cons]
      refine ⟨fun hmem => ?_, pySample_nodup k rs _ (hnd.eraseIdx _)⟩
      have hmem' : pop.getD (r % pop.length) "" ∈ pop.eraseIdx (r % pop.length) :=
        pySample_subset k rs _ _ hmem
      rw [List.getD_eq_getElem _ _ hlt] at hmem'
      obtain ⟨j, hj, hne, heq⟩ := List.mem_eraseIdx_iff_getElem.mp hmem'
      exact hne ((hnd.getElem_inj_iff).mp heq)

lemma pyChoice_le_two (rc : Nat) : pyChoice [0, 1, 2] rc ≤ 2 := by
  have h : rc % 3 < 3 := Nat.mod_lt _ (by norm_num)
  rcases (by omega : rc % 3 = 0 ∨ rc % 3 = 1 ∨ rc % 3 = 2) with h0 | h0 | h0 <;>
    simp [pyChoice, h0]

/-- Claim C4: every diagnostics result has length 0, 1 or 2, never exceeds
the number of distinct catalog codes, repeats no code within one call, and
every returned code is a key of the catalog. -/
theorem obd_diagnostics_shape (rc : Nat) (rand : List Nat) :
    ((obd_diagnostics rc rand).length = 0 ∨ (obd_diagnostics rc rand).length = 1 ∨
      (obd_diagnostics rc rand).length = 2) ∧
    (obd_diagnostics rc rand).length ≤ (DTC_LIBRARY.map Prod.fst).length ∧
    ((obd_diagnostics rc rand).map DiagnosticItem.code).Nodup ∧
    ∀ d ∈ obd_diagnostics rc rand, d.code ∈ DTC_LIBRARY.map Prod.fst := by
  have hlen : (obd_diagnostics rc rand).length =
      (pySample rand (DTC_LIBRARY.map Prod.fst) (pyChoice [0, 1, 2] rc)).length := by
    simp [obd_diagnostics]
  have hk := pySample_length_le_count (pyChoice [0, 1, 2] rc) rand (DTC_LIBRARY.map Prod.fst)
  have hc := pyChoice_le_two rc
  have hpop := pySample_length_le_pop (pyChoice [0, 1, 2] rc) rand (DTC_LIBRARY.map Prod.fst)
  refine ⟨by omega, by omega, ?_, ?_⟩
  · have hcodes : (obd_diagnostics rc rand).map DiagnosticItem.code =
        pySample rand (DTC_LIBRARY.map Prod.fst) (pyChoice [0, 1, 2] rc) := by
      simp [obd_diagnostics, Function.comp_def]
    rw [hcodes]
    exact pySample_nodup _ _ _ (by decide)
  · intro d hd
    simp only [obd_diagnostics, List.mem_map] at hd
    obtain ⟨c, hc', rfl⟩ := hd
    exact pySample_subset _ _ _ _ hc'

/-- Claim C5: for every DiagnosticItem the diagnostics generator produces,
severity is "élevée" exactly when the code is in the fixed high-severity set
{"P0420", "P0300"} and "moyenne" exactly otherwise — a pure function of the
code. -/
theorem obd_diagnostics_severity (rc : Nat) (rand : List Nat)
    (d : DiagnosticItem) (hd : d ∈ obd_diagnostics rc rand) :
    (d.severity = "élevée" ↔ d.code ∈ highSeverityCodes) ∧
    (d.severity = "moyenne" ↔ d.code ∉ highSeverityCodes) := by
  simp only [obd_diagnostics, List.mem_map] at hd
  obtain ⟨c, _, rfl⟩ := hd
  by_cases h : c ∈ highSeverityCodes <;> simp [h]

/-- Witness for claim C5 at rc = 1, rand = [0]: the sampler returns the one
code P0300, whose item has severity élevée. -/
theorem obd_diagnostics_severity_witness :
    (⟨"P0300", "Allumage raté aléatoire/multiple. Vérifier bougies, bobines, faisceau.",
        "élevée"⟩ : DiagnosticItem) ∈ obd_diagnostics 1 [0] ∧
    ((("élevée" : String) = "élevée" ↔ ("P0300" : String) ∈ highSeverityCodes) ∧
      (("élevée" : String) = "moyenne" ↔ ("P0300" : String) ∉ highSeverityCodes)) :=
  ⟨by decide,
    obd_diagnostics_severity 1 [0]
      ⟨"P0300", "Allumage raté aléatoire/multiple. Vérifier bougies, bobines, faisceau.", "élevée"⟩
      (by decide)⟩

/-- Claim C9: every returned item's description is the catalog entry for its
code, so the "Code inconnu" fallback of the lookup is never produced. -/
theorem obd_diagnostics_description_known (rc : Nat) (rand : List Nat)
    (d : DiagnosticItem) (hd : d ∈ obd_diagnostics rc rand) :
    DTC_LIBRARY.lookup d.code = some d.description ∧ d.description ≠ "Code inconnu" := by
  simp only [obd_diagnostics, List.mem_map] at hd
  obtain ⟨c, hc, rfl⟩ := hd
  have hmem : c ∈ DTC_LIBRARY.map Prod.fst := pySample_subset _ _ _ _ hc
  simp only [DTC_LIBRARY, List.map_cons, List.map_nil, List.mem_cons, List.not_mem_nil,
    or_false] at hmem
  rcases hmem with rfl | rfl | rfl | rfl | rfl <;> exact ⟨by decide, by decide⟩

/-- Witness for claim C9 at rc = 1, rand = [0]. -/
theorem obd_diagnostics_description_known_witness :
    DTC_LIBRARY.lookup ("P0300" : String) =
      some "Allumage raté aléatoire/multiple. Vérifier bougies, bobines, faisceau." ∧
    ("Allumage raté aléatoire/multiple. Vérifier bougies, bobines, faisceau." : String) ≠
      "Code inconnu" :=
  obd_diagnostics_description_known 1 [0]
    ⟨"P0300", "Allumage raté aléatoire/multiple. Vérifier bougies, bobines, faisceau.", "élevée"⟩
    (by decide)

/-! ## Classifier lemmas -/

lemma char_toNat_ofNat_lt {n : Nat} (h : n < 55296) : (Char.ofNat n).toNat = n := by
  simp [Char.ofNat, Char.toNat, Nat.isValidChar, h, Char.ofNatAux, UInt32.toNat,
    BitVec.toNat_ofNatLt]

lemma pyLowerChar_notUpper {c : Char}
    (h : ¬ ((65 ≤ c.toNat ∧ c.toNat ≤ 90) ∨
        (192 ≤ c.toNat ∧ c.toNat ≤ 222 ∧ c.toNat ≠ 215))) :
    pyLowerChar c = c := by
  simp only [pyLowerChar, if_neg h]

lemma pyLowerChar_idem (c : Char) : pyLowerChar (pyLowerChar c) = pyLowerChar c := by
  by_cases h : (65 ≤ c.toNat ∧ c.toNat ≤ 90) ∨
      (192 ≤ c.toNat ∧ c.toNat ≤ 222 ∧ c.toNat ≠ 215)
  · have hlow : pyLowerChar c = Char.ofNat (c.toNat + 32) := by
      simp only [pyLowerChar, if_pos h]
    have ht : (Char.ofNat (c.toNat + 32)).toNat = c.toNat + 32 :=
      char_toNat_ofNat_lt (by omega)
    rw [hlow]
    exact pyLowerChar_notUpper (by rw [ht]; omega)
  · rw [pyLowerChar_notUpper h, pyLowerChar_notUpper h]

lemma pyLower_idem (s : String) : pyLower (pyLower s) = pyLower s := by
  have hcomp : pyLowerChar ∘ pyLowerChar = pyLowerChar := funext pyLowerChar_idem
  simp only [pyLower, List.map_map, hcomp]

/-- Claim C6: the classifier is case-insensitive — it depends only on the
lower-cased copy of the input, so classifying a question and classifying its
lower-cased form give the same response. -/
theorem tech_assistant_answer_lower_invariant (q : String) :
    tech_assistant_answer q = tech_assistant_answer (pyLower q) := by
  simp only [tech_assistant_answer, pyLower_idem]

lemma decodeDtc_eq_find? (text : List Char) :
    ∀ l : List (String × String),
      decodeDtc text l =
        (l.find? (fun cd => containsSub (pyLower cd.1).data text)).map
          (fun cd => ⟨"Le code " ++ cd.1 ++ " signifie: " ++ cd.2, some [dtcTip]⟩)
  | [] => rfl
  | (code, desc) :: rest => by
    by_cases h : containsSub (pyLower code).data text
    · simp [decodeDtc, h, List.find?_cons]
    · rw [List.find?_cons_of_neg _ (by simpa using h)]
      simp only [decodeDtc, if_neg h, decodeDtc_eq_find? text rest]

/-- Claim C2: the classifier implements exactly the six-step first-match-wins
priority cascade on the lower-cased question that the spec states — catalog
codes in declaration order first (so with several codes present the earliest
declared one wins), then the obd/elm327 rule, the idle/lambda keywords, the
ECU keywords, the battery keywords, and the fixed default last. -/
theorem tech_assistant_answer_eq_spec_cascade (q : String) :
    tech_assistant_answer q = classify_spec q := by
  simp only [tech_assistant_answer, classify_spec, decodeDtc_eq_find?,
    kwAny, idleKeywords, ecuKeywords, batKeywords]
  cases DTC_LIBRARY.find? (fun cd => containsSub (pyLower cd.1).data (pyLower q).data) <;>
    rfl

lemma runSession_getElem (p s : List String) (q : String) :
    (runSession (p ++ q :: s))[p.length]? = some (tech_assistant_answer q) := by
  induction p with
  | nil => simp [runSession]
  | cons a t ih => simpa [runSession, List.getElem?_cons_succ] using ih

/-- Claim C7: the classifier is deterministic and stateless — in any two call
sequences, whatever questions precede or follow, the response to the same
question q is the identical ChatResponse, independent of call order and prior
calls. -/
theorem classifier_session_independent (p1 s1 p2 s2 : List String) (q : String) :
    (runSession (p1 ++ q :: s1))[p1.length]? = (runSession (p2 ++ q :: s2))[p2.length]? := by
  rw [runSession_getElem, runSession_getElem]

/-- Claim C8: the classifier is total, and whenever the lower-cased question
contains no catalog code as a substring and none of the keywords of rules 2
through 5, the result is the fixed default response with tips absent. -/
theorem tech_assistant_answer_default (q : String)
    (hdtc : ∀ cd ∈ DTC_LIBRARY, containsSub (pyLower cd.1).data (pyLower q).data = false)
    (hobd : containsSub "obd".data (pyLower q).data = false)
    (helm : containsSub "elm327".data (pyLower q).data = false)
    (hidle : kwAny idleKeywords (pyLower q).data = false)
    (hecu : kwAny ecuKeywords (pyLower q).data = false)
    (hbat : kwAny batKeywords (pyLower q).data = false) :
    tech_assistant_answer q = ⟨defaultAnswer, none⟩ := by
  have hfind :
      DTC_LIBRARY.find? (fun cd => containsSub (pyLower cd.1).data (pyLower q).data) = none :=
    List.find?_eq_none.mpr (fun x hx => by simp [hdtc x hx])
  simp [tech_assistant_answer, decodeDtc_eq_find?, hfind, hobd, helm, hidle, hecu, hbat]

/-- Witness for claim C8 at the question "bonjour": no rule matches and the
default response with absent tips is returned. -/
theorem tech_assistant_answer_default_witness :
    (∀ cd ∈ DTC_LIBRARY, containsSub (pyLower cd.1).data (pyLower "bonjour").data = false) ∧
    tech_assistant_answer "bonjour" = ⟨defaultAnswer, none⟩ :=
  ⟨by decide,
    tech_assistant_answer_default "bonjour" (by decide) (by decide) (by decide) (by decide)
      (by decide) (by decide)⟩

lemma dtcHit_iff_find?_isSome (q : String) :
    dtcHit q = true ↔
      (DTC_LIBRARY.find?
        (fun cd => containsSub (pyLower cd.1).data (pyLower q).data)).isSome = true := by
  rw [dtcHit, List.any_eq_true, List.find?_isSome]

/-- Claim C10: the response never carries a present-but-empty tips list: tips
is none exactly when no rule matches, a one-element list exactly when a DTC
code rule matches, and a two-element list exactly when one of the four
keyword-category rules fires. -/
theorem tech_assistant_answer_tips_shape (q : String) :
    ((tech_assistant_answer q).tips = none ↔ (dtcHit q = false ∧ kwHit q = false)) ∧
    ((∃ t, (tech_assistant_answer q).tips = some [t]) ↔ dtcHit q = true) ∧
    ((∃ t1 t2, (tech_assistant_answer q).tips = some [t1, t2]) ↔
      (dtcHit q = false ∧ kwHit q = true)) ∧
    (tech_assistant_answer q).tips ≠ some [] := by
  have hfind := decodeDtc_eq_find? ((pyLower q).data) DTC_LIBRARY
  by_cases hd : dtcHit q
  · obtain ⟨cd, hcd⟩ := Option.isSome_iff_exists.mp ((dtcHit_iff_find?_isSome q).mp hd)
    have htech : tech_assistant_answer q =
        ⟨"Le code " ++ cd.1 ++ " signifie: " ++ cd.2, some [dtcTip]⟩ := by
      simp [tech_assistant_answer, hfind, hcd]
    rw [htech]
    refine ⟨by simp [hd], ⟨fun _ => hd, fun _ => ⟨dtcTip, rfl⟩⟩, by simp [hd], by simp⟩
  · have hdf : dtcHit q = false := by simpa using hd
    have hfnone :
        DTC_LIBRARY.find?
          (fun cd => containsSub (pyLower cd.1).data (pyLower q).data) = none := by
      rcases hopt : DTC_LIBRARY.find?
          (fun cd => containsSub (pyLower cd.1).data (pyLower q).data) with _ | cd
      · exact hopt
      · exact absurd ((dtcHit_iff_find?_isSome q).mpr (by simp [hopt])) hd
    simp only [tech_assistant_answer, hfind, hfnone, Option.map_none']
    by_cases h1 : (containsSub "obd".data (pyLower q).data ||
        containsSub "elm327".data (pyLower q).data) = true
    · have hkw : kwHit q = true := by
        rcases Bool.or_eq_true_iff.mp h1 with h | h <;> simp [kwHit, h]
      simp only [h1, if_true]
      exact ⟨by simp [hkw], by simp [hdf, obdTips], by simp [hdf, hkw, obdTips], by simp [obdTips]⟩
    · by_cases h2 : kwAny idleKeywords (pyLower q).data = true
      · have hkw : kwHit q = true := by simp [kwHit, h2]
        simp only [Bool.not_eq_true] at h1
        simp only [h1, Bool.false_eq_true, if_false, h2, if_true]
        exact ⟨by simp [hkw], by simp [hdf, idleTips], by simp [hdf, hkw, idleTips],
          by simp [idleTips]⟩
      · by_cases h3 : kwAny ecuKeywords (pyLower q).data = true
        · have hkw : kwHit q = true := by simp [kwHit, h3]
          simp only [Bool.not_eq_true] at h1 h2
          simp only [h1, h2, Bool.false_eq_true, if_false, h3, if_true]
          exact ⟨by simp [hkw], by simp [hdf, ecuTips], by simp [hdf, hkw, ecuTips],
            by simp [ecuTips]⟩
        · by_cases h4 : kwAny batKeywords (pyLower q).data = true
          · have hkw : kwHit q = true := by simp [kwHit, h4]
            simp only [Bool.not_eq_true] at h1 h2 h3
            simp only [h1, h2, h3, Bool.false_eq_true, if_false, h4, if_true]
            exact ⟨by simp [hkw], by simp [hdf, batTips], by simp [hdf, hkw, batTips],
              by simp [batTips]⟩
          · have hkw : kwHit q = false := by
              simp only [Bool.not_eq_true, Bool.or_eq_true_iff, not_or] at h1
              simp only [Bool.not_eq_true] at h2 h3 h4
              simp [kwHit, h1.1, h1.2, h2, h3, h4]
            simp only [Bool.not_eq_true] at h1 h2 h3 h4
            simp only [h1, h2, h3, h4, Bool.false_eq_true, if_false]
            exact ⟨by simp [hdf, hkw], by simp [hd], by simp [hkw], by simp⟩

end OBD
